import Mathlib

/-!
# Verification of the sunnyportal-py request/response pipeline

A shallow embedding of `sunnyportal/requests.py` and
`sunnyportal/responses.py`: the HMAC-SHA1 request-signing engine, URL
construction, and the XML-to-record response decoders, together with
theorems settling the specification claims about them.

Machine integers are modelled as `Nat` with explicit reduction mod `2^32`
where the Python code relies on library primitives (SHA-1) that operate on
32-bit words.  Python exceptions are modelled with `Except`; `None` with
`Option`.
-/

set_option maxRecDepth 100000
set_option exponentiation.threshold 2000

deriving instance DecidableEq for Except

namespace SP

/-! ## Bytes and 32-bit words -/

/-- Truncate to a 32-bit word. -/
def w32 (n : Nat) : Nat := n % 4294967296

/-- Rotate a 32-bit word left by `s` bits (`0 < s < 32`). -/
def rotl (s x : Nat) : Nat := w32 ((x <<< s) ||| (x >>> (32 - s)))

/-- Bitwise complement of a 32-bit word. -/
def wnot (x : Nat) : Nat := x ^^^ 4294967295

/-! ## SHA-1 (as provided by `hashlib.sha1`) -/

/-- SHA-1 round function `f_t`. -/
def sha1F (t b c d : Nat) : Nat :=
  if t < 20 then (b &&& c) ||| (wnot b &&& d)
  else if t < 40 then b ^^^ c ^^^ d
  else if t < 60 then (b &&& c) ||| (b &&& d) ||| (c &&& d)
  else b ^^^ c ^^^ d

/-- SHA-1 round constant `K_t`. -/
def sha1K (t : Nat) : Nat :=
  if t < 20 then 0x5A827999
  else if t < 40 then 0x6ED9EBA1
  else if t < 60 then 0x8F1BBCDC
  else 0xCA62C1D6

/-- Extend the message schedule; `acc` holds the words seen so far in
reverse order, `fuel` counts the words still to produce. -/
def sha1ExtendAux : Nat → List Nat → List Nat
  | 0, acc => acc
  | fuel + 1, acc =>
      let w := rotl 1 (acc.getD 2 0 ^^^ acc.getD 7 0 ^^^ acc.getD 13 0 ^^^ acc.getD 15 0)
      sha1ExtendAux fuel (w :: acc)

/-- The 80-word message schedule of one 16-word block. -/
def sha1Schedule (block : List Nat) : List Nat :=
  (sha1ExtendAux 64 block.reverse).reverse

/-- One SHA-1 compression round; the state carries the round index. -/
def sha1Round : Nat × Nat × Nat × Nat × Nat × Nat → Nat → Nat × Nat × Nat × Nat × Nat × Nat
  | (t, a, b, c, d, e), w =>
      let tmp := w32 (rotl 5 a + sha1F t b c d + e + sha1K t + w)
      (t + 1, tmp, a, rotl 30 b, c, d)

/-- Compress one 16-word block into the running hash state. -/
def sha1Block (h : Nat × Nat × Nat × Nat × Nat) (block : List Nat) :
    Nat × Nat × Nat × Nat × Nat :=
  let (h0, h1, h2, h3, h4) := h
  let (_, a, b, c, d, e) := (sha1Schedule block).foldl sha1Round (0, h0, h1, h2, h3, h4)
  (w32 (h0 + a), w32 (h1 + b), w32 (h2 + c), w32 (h3 + d), w32 (h4 + e))

/-- Split a byte list into chunks of `k` bytes (`fuel` bounds recursion). -/
def chunksAux (k : Nat) : Nat → List Nat → List (List Nat)
  | 0, _ => []
  | _, [] => []
  | fuel + 1, bs => bs.take k :: chunksAux k fuel (bs.drop k)

/-- Big-endian bytes (most significant first) of `n`, `k` bytes wide. -/
def beBytes (k n : Nat) : List Nat :=
  (List.range k).map (fun i => (n >>> (8 * (k - 1 - i))) % 256)

/-- Combine 4 bytes big-endian into a 32-bit word. -/
def word4 : List Nat → Nat
  | a :: b :: c :: d :: _ => ((a * 256 + b) * 256 + c) * 256 + d
  | _ => 0

/-- SHA-1 padding: `0x80`, zeros to 56 mod 64, then the 64-bit bit length. -/
def sha1Pad (msg : List Nat) : List Nat :=
  let len := msg.length
  msg ++ [0x80] ++ List.replicate ((119 - len % 64) % 64) 0 ++ beBytes 8 (8 * len)

/-- SHA-1 digest of a byte list, as a list of 20 bytes. -/
def sha1 (msg : List Nat) : List Nat :=
  let padded := sha1Pad msg
  let blocks := (chunksAux 64 (padded.length) padded).map
    (fun bs => (chunksAux 4 64 bs).map word4)
  let (h0, h1, h2, h3, h4) := blocks.foldl sha1Block
    (0x67452301, 0xEFCDAB89, 0x98BADCFE, 0x10325476, 0xC3D2E1F0)
  beBytes 4 h0 ++ beBytes 4 h1 ++ beBytes 4 h2 ++ beBytes 4 h3 ++ beBytes 4 h4

/-! ## HMAC (as provided by `hmac.new(key, digestmod=hashlib.sha1)`) -/

/-- HMAC-SHA1 of `msg` under `key` (block size 64). -/
def hmacSha1 (key msg : List Nat) : List Nat :=
  let k0 := if 64 < key.length then sha1 key else key
  let k := k0 ++ List.replicate (64 - k0.length) 0
  sha1 ((k.map (fun b => b ^^^ 0x5C)) ++ sha1 ((k.map (fun b => b ^^^ 0x36)) ++ msg))

/-! ## Base64 (as provided by `base64.standard_b64encode`) -/

/-- The standard base64 alphabet. -/
def b64Char (n : Nat) : Char :=
  "ABCDEFGHIJKLMNOPQRSTUVWXYZabcdefghijklmnopqrstuvwxyz0123456789+/".toList.getD n '?'

/-- Standard base64 encoding of a byte list. -/
def b64encode : List Nat → List Char
  | [] => []
  | [a] => [b64Char (a / 4), b64Char (a % 4 * 16), '=', '=']
  | [a, b] => [b64Char (a / 4), b64Char (a % 4 * 16 + b / 16), b64Char (b % 16 * 4), '=']
  | a :: b :: c :: rest =>
      b64Char (a / 4) :: b64Char (a % 4 * 16 + b / 16) ::
      b64Char (b % 16 * 4 + c / 64) :: b64Char (c % 64) :: b64encode rest

/-- `base64.standard_b64encode` returning an ASCII string. -/
def b64encodeStr (bs : List Nat) : String := ⟨b64encode bs⟩

/-! ## Strings: UTF-8 encoding (`str.encode()`) and ASCII lowering -/

/-- UTF-8 encoding of one character. -/
def utf8Char (c : Char) : List Nat :=
  let n := c.toNat
  if n < 0x80 then [n]
  else if n < 0x800 then [0xC0 + n / 64, 0x80 + n % 64]
  else if n < 0x10000 then [0xE0 + n / 4096, 0x80 + n / 64 % 64, 0x80 + n % 64]
  else [0xF0 + n / 262144, 0x80 + n / 4096 % 64, 0x80 + n / 64 % 64, 0x80 + n % 64]

/-- UTF-8 encoding of a string (Python `str.encode()`). -/
def utf8 (s : String) : List Nat := (s.data.map utf8Char).flatten

/-- ASCII lower-casing of one character. -/
def lowerChar (c : Char) : Char :=
  if 'A' ≤ c ∧ c ≤ 'Z' then Char.ofNat (c.toNat + 32) else c

/-- `str.lower()` (restricted to its ASCII behaviour, which is all the
code ever feeds it). -/
def pyLower (s : String) : String := ⟨s.data.map lowerChar⟩

/-! ## Python exceptions

Every way the parsing code can raise, each modelled as a distinct
constructor: the repository's own `MalformedResponseError` and
`ResponseError` (message and optional code), plus the builtin exceptions
that escape from library calls (`ValueError` from `strptime`/`float`,
`OverflowError` from `int()` of an infinity, `AttributeError` from a
`None` attribute access, `AssertionError` from a failed `assert`,
`NotImplementedError`). -/
inductive PyError where
  | malformed (msg : String)
  | responseError (msg : String) (code : Option String)
  | valueError
  | overflowError
  | attributeError
  | assertionError
  | notImplementedError
  | typeError
  deriving DecidableEq, Repr

/-! ## Naive datetimes (`datetime.datetime`)

A naive local datetime at second granularity (the code only ever formats
and compares at second precision).  Conversion to a count of seconds from
the civil epoch 1970-01-01 gives the `timedelta` arithmetic. -/

structure DateTime where
  year : Nat
  month : Nat
  day : Nat
  hour : Nat
  minute : Nat
  second : Nat
  deriving DecidableEq, Repr

/-- Gregorian leap year. -/
def isLeap (y : Nat) : Bool := y % 4 = 0 && (y % 100 ≠ 0 || y % 400 = 0)

/-- Days in a month. -/
def daysInMonth (y m : Nat) : Nat :=
  if m = 2 then (if isLeap y then 29 else 28)
  else if m = 4 ∨ m = 6 ∨ m = 9 ∨ m = 11 then 30
  else 31

/-- The validity check performed by the `datetime` constructor. -/
def DateTime.valid (t : DateTime) : Bool :=
  1 ≤ t.year && t.year ≤ 9999 && 1 ≤ t.month && t.month ≤ 12 &&
  1 ≤ t.day && t.day ≤ daysInMonth t.year t.month &&
  t.hour < 24 && t.minute < 60 && t.second < 60

/-- Days from 1970-01-01 to civil date `y-m-d` (Gregorian, proleptic). -/
def daysFromCivil (y m d : Nat) : Int :=
  let y' := y - (if m ≤ 2 then 1 else 0)
  let era := y' / 400
  let yoe := y' % 400
  let mp := if 2 < m then m - 3 else m + 9
  let doy := (153 * mp + 2) / 5 + d - 1
  let doe := yoe * 365 + yoe / 4 - yoe / 100 + doy
  (era * 146097 + doe : Int) - 719468

/-- Civil date from a day count relative to 1970-01-01. -/
def civilFromDays (z : Int) : Nat × Nat × Nat :=
  let z' := z + 719468
  let era := z'.fdiv 146097
  let doe := (z' - era * 146097).toNat
  let yoe := (doe - doe / 1460 + doe / 36524 - doe / 146096) / 365
  let doy := doe - (365 * yoe + yoe / 4 - yoe / 100)
  let mp := (5 * doy + 2) / 153
  let d := doy - (153 * mp + 2) / 5 + 1
  let m := if mp < 10 then mp + 3 else mp - 9
  (((era * 400 + yoe : Int) + (if m ≤ 2 then 1 else 0)).toNat, m, d)

/-- A datetime as seconds from the epoch (for `timedelta` arithmetic). -/
def DateTime.toSecs (t : DateTime) : Int :=
  daysFromCivil t.year t.month t.day * 86400 +
    (t.hour * 3600 + t.minute * 60 + t.second : Nat)

/-- Datetime from a second count relative to the epoch. -/
def dtFromSecs (z : Int) : DateTime :=
  let days := z.fdiv 86400
  let r := (z - days * 86400).toNat
  let c := civilFromDays days
  ⟨c.1, c.2.1, c.2.2, r / 3600, r / 60 % 60, r % 60⟩

/-- `datetime.combine(d, t.time())`: date fields from `d`, time from `t`. -/
def DateTime.combine (d t : DateTime) : DateTime :=
  ⟨d.year, d.month, d.day, t.hour, t.minute, t.second⟩

/-- `.date()`: drop the time-of-day fields. -/
def DateTime.dateOnly (t : DateTime) : DateTime :=
  ⟨t.year, t.month, t.day, 0, 0, 0⟩

/-! ### `strftime` for the formats the code uses -/

/-- A decimal digit character. -/
def digitChar (n : Nat) : Char := Char.ofNat (48 + n % 10)

/-- Two-digit zero-padded field (`%m`, `%d`, `%H`, `%M`, `%S`). -/
def pad2 (n : Nat) : List Char := [digitChar (n / 10 % 10), digitChar (n % 10)]

/-- Four-digit zero-padded field (`%Y`). -/
def pad4 (n : Nat) : List Char :=
  [digitChar (n / 1000 % 10), digitChar (n / 100 % 10), digitChar (n / 10 % 10),
   digitChar (n % 10)]

/-- `strftime("%Y-%m-%dT%H:%M:%S")`, the signature timestamp format. -/
def fmtSigTimestamp (t : DateTime) : String :=
  ⟨pad4 t.year ++ '-' :: pad2 t.month ++ '-' :: pad2 t.day ++
   'T' :: pad2 t.hour ++ ':' :: pad2 t.minute ++ ':' :: pad2 t.second⟩

/-- `strftime("%Y-%m-%d")`, the date segment of data-request paths. -/
def fmtYmd (t : DateTime) : String :=
  ⟨pad4 t.year ++ '-' :: pad2 t.month ++ '-' :: pad2 t.day⟩

/-! ### `strptime` for the formats the code uses

Each format string the source passes to `datetime.strptime` is modelled
by its own parser over the character list; a failed match or an invalid
calendar date is `none` (Python: `ValueError`). -/

/-- Digit value of a character. -/
def digitVal (c : Char) : Nat := c.toNat - 48

/-- Greedily read one or two digits (the `%d`/`%m`/`%H`/`%M`/`%S`/`%I`
field pattern). -/
def readNum2 : List Char → Option (Nat × List Char)
  | c1 :: c2 :: rest =>
      if c1.isDigit then
        if c2.isDigit then some (digitVal c1 * 10 + digitVal c2, rest)
        else some (digitVal c1, c2 :: rest)
      else none
  | [c1] => if c1.isDigit then some (digitVal c1, []) else none
  | [] => none

/-- Greedily read one to four digits (the `%Y` field pattern). -/
def readNum4 : List Char → Option (Nat × List Char) :=
  fun cs =>
    match readNum2 cs with
    | none => none
    | some (hi, rest) =>
        match readNum2 rest with
        | some (lo, rest') =>
            if rest.length - rest'.length = 2 then some (hi * 100 + lo, rest')
            else some (hi * 10 + lo, rest')
        | none => some (hi, rest)

/-- Match one literal character. -/
def lit (c : Char) : List Char → Option (List Char)
  | c' :: rest => if c = c' then some rest else none
  | [] => none

/-- Build a datetime, checking validity as the `datetime` constructor does. -/
def mkDT (y m d h mi s : Nat) : Option DateTime :=
  let t : DateTime := ⟨y, m, d, h, mi, s⟩
  if t.valid then some t else none

/-- `strptime(s, "%d/%m/%Y")`. -/
def strptimeDMY (s : String) : Option DateTime :=
  match readNum2 s.data with
  | none => none
  | some (d, r1) =>
    match lit '/' r1 with
    | none => none
    | some r2 =>
      match readNum2 r2 with
      | none => none
      | some (m, r3) =>
        match lit '/' r3 with
        | none => none
        | some r4 =>
          match readNum4 r4 with
          | some (y, []) => mkDT y m d 0 0 0
          | _ => none

/-- `strptime(s, "%m/%Y")`. -/
def strptimeMY (s : String) : Option DateTime :=
  match readNum2 s.data with
  | none => none
  | some (m, r1) =>
    match lit '/' r1 with
    | none => none
    | some r2 =>
      match readNum4 r2 with
      | some (y, []) => mkDT y m 1 0 0 0
      | _ => none

/-- `strptime(s, "%Y")`. -/
def strptimeY (s : String) : Option DateTime :=
  match readNum4 s.data with
  | some (y, []) => mkDT y 1 1 0 0 0
  | _ => none

/-- `strptime(s, "%H:%M")` (missing fields default to 1900-01-01). -/
def strptimeHM (s : String) : Option DateTime :=
  match readNum2 s.data with
  | none => none
  | some (h, r1) =>
    match lit ':' r1 with
    | none => none
    | some r2 =>
      match readNum2 r2 with
      | some (mi, []) => mkDT 1900 1 1 h mi 0
      | _ => none

/-- `strptime(s, "%d/%m/%Y %H:%M")`. -/
def strptimeDMYHM (s : String) : Option DateTime :=
  match s.data.splitOn ' ' with
  | [datePart, timePart] =>
      match strptimeDMY ⟨datePart⟩, strptimeHM ⟨timePart⟩ with
      | some d, some t => mkDT d.year d.month d.day t.hour t.minute 0
      | _, _ => none
  | _ => none

/-- `strptime(s, "%d/%m/%Y %H:%M:%S")`. -/
def strptimeDMYHMS (s : String) : Option DateTime :=
  match s.data.splitOn ' ' with
  | [datePart, timePart] =>
      match strptimeDMY ⟨datePart⟩, timePart.splitOn ':' with
      | some d, [hs, mis, ss] =>
          match readNum2 hs, readNum2 mis, readNum2 ss with
          | some (h, []), some (mi, []), some (sec, []) =>
              mkDT d.year d.month d.day h mi sec
          | _, _, _ => none
      | _, _ => none
  | _ => none

/-- `strptime(s, "%m/%d/%Y %I:%M:%S %p")`, the creation-date format. -/
def strptimeMDYIMSp (s : String) : Option DateTime :=
  match s.data.splitOn ' ' with
  | [datePart, timePart, ampm] =>
      let date :=
        match readNum2 datePart with
        | none => none
        | some (m, r1) =>
          match lit '/' r1 with
          | none => none
          | some r2 =>
            match readNum2 r2 with
            | none => none
            | some (d, r3) =>
              match lit '/' r3 with
              | none => none
              | some r4 =>
                match readNum4 r4 with
                | some (y, []) => some (y, m, d)
                | _ => none
      match date, timePart.splitOn ':' with
      | some (y, m, d), [hs, mis, ss] =>
          match readNum2 hs, readNum2 mis, readNum2 ss with
          | some (i, []), some (mi, []), some (sec, []) =>
              if 1 ≤ i ∧ i ≤ 12 then
                let pm :=
                  if ampm.map lowerChar = ['p', 'm'] then some true
                  else if ampm.map lowerChar = ['a', 'm'] then some false
                  else none
                match pm with
                | some true => mkDT y m d (if i = 12 then 12 else i + 12) mi sec
                | some false => mkDT y m d (if i = 12 then 0 else i) mi sec
                | none => none
              else none
          | _, _, _ => none
      | _, _ => none
  | _ => none

/-! ## IEEE-754 binary64 (Python `float`)

Finite doubles, represented exactly as `(-1)^neg * m * 2^e` with
`m < 2^53`; `m = 0` is zero, `e = -1074` with `m < 2^52` the subnormals.
`float(string)` is correctly-rounded decimal conversion (round to
nearest, ties to even) and multiplication rounds its exact product the
same way, which is exactly CPython's behaviour. -/

structure PFloat where
  neg : Bool
  m : Nat
  e : Int
  deriving DecidableEq, Repr

/-- Bit length with explicit fuel (kernel-reducible). -/
def bitlenAux : Nat → Nat → Nat
  | 0, _ => 0
  | fuel + 1, n => if n = 0 then 0 else bitlenAux fuel (n / 2) + 1

/-- Number of binary digits of `n`. -/
def bitlen (n : Nat) : Nat := bitlenAux 5000 n

/-- Round `num / den` to the nearest integer, ties to even. -/
def rne (num den : Nat) : Nat :=
  let q := num / den
  let r := num % den
  if den < 2 * r then q + 1
  else if 2 * r < den then q
  else if q % 2 = 0 then q else q + 1

/-- Round the positive value `n * 10^E` to the nearest binary64,
returning mantissa and exponent, or `none` on overflow to infinity. -/
def roundDecToDouble (n : Nat) (E : Int) : Option (Nat × Int) :=
  let q := n * 10 ^ E.toNat * 2 ^ 1100 / 10 ^ (-E).toNat
  if q = 0 then some (0, -1074)
  else
    let e : Int := (bitlen q : Int) - 1153
    let e' := max e (-1074)
    let num := n * 10 ^ E.toNat * 2 ^ (-e').toNat
    let den := 10 ^ (-E).toNat * 2 ^ e'.toNat
    let m := rne num den
    let (m', e'') := if m = 2 ^ 53 then (2 ^ 52, e' + 1) else (m, e')
    if 971 < e'' then none else some (m', e'')

/-- Parse the decimal literal grammar accepted by `float(str)` (sign,
digits with optional point, optional exponent), as `(neg, n, E)` with
value `±n * 10^E`; `none` where `float()` raises `ValueError`. -/
def parseDecimal (s : String) : Option (Bool × Nat × Int) :=
  let cs := s.data
  let (neg, cs) :=
    match cs with
    | '-' :: rest => (true, rest)
    | '+' :: rest => (false, rest)
    | _ => (false, cs)
  let intPart := cs.takeWhile Char.isDigit
  let cs := cs.dropWhile Char.isDigit
  let (fracPart, cs) :=
    match cs with
    | '.' :: rest => (rest.takeWhile Char.isDigit, rest.dropWhile Char.isDigit)
    | _ => ([], cs)
  if intPart.isEmpty ∧ fracPart.isEmpty then none
  else
    let digits := intPart ++ fracPart
    let n := digits.foldl (fun acc c => acc * 10 + digitVal c) 0
    match cs with
    | [] => some (neg, n, -(fracPart.length : Int))
    | e :: rest =>
        if e = 'e' ∨ e = 'E' then
          let (eneg, rest) :=
            match rest with
            | '-' :: r => (true, r)
            | '+' :: r => (false, r)
            | _ => (false, rest)
          let expDigits := rest.takeWhile Char.isDigit
          if expDigits.isEmpty ∨ ¬(rest.dropWhile Char.isDigit).isEmpty then none
          else
            let ev := expDigits.foldl (fun acc c => acc * 10 + digitVal c) 0
            let ev' : Int := if eneg then -(ev : Int) else ev
            some (neg, n, ev' - fracPart.length)
        else none

/-- `float(string)` for finite results; `none` where Python raises or
produces an infinity. -/
def pyFloatOfString (s : String) : Option PFloat :=
  match parseDecimal s with
  | none => none
  | some (neg, n, E) =>
      if n = 0 then some ⟨neg, 0, -1074⟩
      else
        match roundDecToDouble n E with
        | none => none
        | some (m, e) => some ⟨neg, m, e⟩

/-- Multiply a finite double by 1000, rounding the exact product to
nearest-even; `none` on overflow to infinity. -/
def pfMul1000 (x : PFloat) : Option PFloat :=
  if x.m = 0 then some x
  else
    let M := x.m * 1000
    let sh : Int := (bitlen M : Int) - 53
    if sh ≤ 0 then some ⟨x.neg, M, x.e⟩
    else
      let m := rne M (2 ^ sh.toNat)
      let (m', e') := if m = 2 ^ 53 then (2 ^ 52, x.e + sh + 1) else (m, x.e + sh)
      if 971 < e' then none else some ⟨x.neg, m', e'⟩

/-- `int(x)` for a finite double: truncation toward zero. -/
def pfTruncInt (x : PFloat) : Int :=
  let mag : Nat := if 0 ≤ x.e then x.m <<< x.e.toNat else x.m >>> (-x.e).toNat
  if x.neg then -(mag : Int) else (mag : Int)

/-! ## XML elements (`xml.etree.ElementTree`)

The decoders receive documents already parsed by `ET.fromstring`; the
embedding starts from the element tree.  Only the path forms the source
actually uses are modelled: plain child tags, `*` wildcards, and the
`tag[@attr]` attribute-presence predicate, joined by `/` with an
optional leading `./`. -/

inductive Elem where
  | mk (tag : String) (attrs : List (String × String)) (text? : Option String)
      (children : List Elem)

/-- The element's tag. -/
def Elem.tag : Elem → String
  | .mk t _ _ _ => t

/-- The element's attributes in document order. -/
def Elem.attrs : Elem → List (String × String)
  | .mk _ a _ _ => a

/-- The element's text, `none` when empty (`.text` is `None`). -/
def Elem.text : Elem → Option String
  | .mk _ _ tx _ => tx

/-- The element's children in document order. -/
def Elem.children : Elem → List Elem
  | .mk _ _ _ c => c

/-- `element.get(attribute)`: first binding of the attribute, if any. -/
def Elem.get (e : Elem) (a : String) : Option String :=
  (e.attrs.find? (fun p => p.1 = a)).map (·.2)

/-- One step of an ElementTree path. -/
inductive Seg where
  | tag (t : String)
  | star
  | tagAttr (t a : String)
  deriving DecidableEq, Repr

/-- Does a child element match a path step? -/
def Seg.matches : Seg → Elem → Bool
  | .tag t, e => e.tag = t
  | .star, _ => true
  | .tagAttr t a, e => e.tag = t && (e.get a).isSome

/-- Split a character list on a separator character (structurally
recursive, unlike `String.splitOn`, so it reduces definitionally). -/
def splitOnChar (sep : Char) : List Char → List (List Char)
  | [] => [[]]
  | c :: rest =>
      match splitOnChar sep rest with
      | [] => [[c]]
      | h :: t => if c = sep then [] :: h :: t else (c :: h) :: t

/-- Parse one path component (`x`, `*`, or `x[@a]`). -/
def parseSeg (cs : List Char) : Seg :=
  if cs = ['*'] then .star
  else
    match splitOnChar '[' cs with
    | [t, '@' :: rest] => .tagAttr ⟨t⟩ ⟨rest.takeWhile (· ≠ ']')⟩
    | _ => .tag ⟨cs⟩

/-- Parse an ElementTree path into its steps. -/
def parsePath (s : String) : List Seg :=
  ((splitOnChar '/' s.data).filter (fun p => p ≠ ['.'] ∧ p ≠ [])).map parseSeg

/-- All elements matching one more path step, in document order. -/
def selectSeg (es : List Elem) (s : Seg) : List Elem :=
  (es.map (fun e => e.children.filter (s.matches ·))).flatten

/-- `element.iterfind(path)` / `element.findall(path)`: all matches in
document order. -/
def Elem.iterfind (e : Elem) (path : String) : List Elem :=
  (parsePath path).foldl selectSeg [e]

/-- `element.find(path)`: the first match, if any. -/
def Elem.find (e : Elem) (path : String) : Option Elem :=
  (e.iterfind path).head?

/-- `element.findtext(path)`: text of the first match (empty text reads
as `""`), or `None` when nothing matches. -/
def Elem.findtext (e : Elem) (path : String) : Option String :=
  (e.find path).map (fun c => c.text.getD "")

/-- ASCII upper-casing of one character. -/
def upperChar (c : Char) : Char :=
  if 'a' ≤ c ∧ c ≤ 'z' then Char.ofNat (c.toNat - 32) else c

/-- `str.upper()` (ASCII behaviour). -/
def pyUpper (s : String) : String := ⟨s.data.map upperChar⟩

/-! ## Response decoding (`sunnyportal/responses.py`)

Domain records (the `namedtuple`s of the source). -/

structure Yield where
  timestamp : DateTime
  absolute : Int
  difference : Int
  deriving DecidableEq, Repr

structure Consumption where
  external : Option Int
  internal : Option Int
  direct : Option Int
  deriving DecidableEq, Repr

structure Generation where
  total : Option Int
  self_consumption : Option Int
  feed_in : Option Int
  deriving DecidableEq, Repr

structure Battery where
  charge : Option Int
  discharge : Option Int
  deriving DecidableEq, Repr

structure EnergyBalance where
  timestamp : DateTime
  consumption : Consumption
  generation : Generation
  battery : Option Battery
  deriving DecidableEq, Repr

/-- `ResponseBase.find_or_raise`: find a path or fail with
`MalformedResponseError("Missing %s tag" % tag)`. -/
def find_or_raise (e : Elem) (path : String) : Except PyError Elem :=
  match e.find path with
  | some c => .ok c
  | none => .error (.malformed ("Missing " ++ path ++ " tag"))

/-- `ResponseBase.get_or_raise`: read a mandatory attribute or fail with
`MalformedResponseError("Missing %s attribute in %s tag" % ...)`. -/
def get_or_raise (e : Elem) (a : String) : Except PyError String :=
  match e.get a with
  | some v => .ok v
  | none => .error (.malformed ("Missing " ++ a ++ " attribute in " ++ e.tag ++ " tag"))

/-- `ResponseBase.kwh_to_wh`: `None` passes through, otherwise
`int(float(kwh) * 1000)`.  A string `float()` rejects raises
(`ValueError`); an overflow to infinity makes `int()` raise. -/
def kwh_to_wh : Option String → Except PyError (Option Int)
  | none => .ok none
  | some s =>
      match pyFloatOfString s with
      | none => .error .valueError
      | some f =>
          match pfMul1000 f with
          | none => .error .overflowError
          | some g => .ok (some (pfTruncInt g))

/-- The `"Wh"` converter of `EnergyBalanceResponse.parse`:
`lambda wh: None if wh is None else int(float(wh))`. -/
def wh_converter : Option String → Except PyError (Option Int)
  | none => .ok none
  | some s =>
      match pyFloatOfString s with
      | none => .error .valueError
      | some f => .ok (some (pfTruncInt f))

/-- `DataResponse.parse_timestamp`: mandatory `timestamp` attribute
parsed with the format modelled by `fmt`. -/
def parse_timestamp (e : Elem) (fmt : String → Option DateTime) :
    Except PyError DateTime :=
  match get_or_raise e "timestamp" with
  | .error er => .error er
  | .ok s =>
      match fmt s with
      | none => .error .valueError
      | some t => .ok t

/-- `DataResponse.parse_abs_diff`: unit-convert the optional `absolute`
and `difference` attributes. -/
def parse_abs_diff (e : Elem) : Except PyError (Option Int × Option Int) :=
  match kwh_to_wh (e.get "absolute") with
  | .error er => .error er
  | .ok a =>
      match kwh_to_wh (e.get "difference") with
      | .error er => .error er
      | .ok d => .ok (a, d)

/-! ### Envelope (`ResponseBase.parse`) -/

/-- The data `ResponseBase.parse` extracts besides the payload element. -/
structure Envelope where
  payload : Elem
  creationDate : String
  method : String

/-- `ResponseBase.parse`: validate the envelope, fail on an embedded
`error` element, extract `creation-date` and upper-cased `method`, and
locate the payload child (named by the `name` attribute unless the
caller supplies one). -/
def envelopeParse (root : Elem) (name : Option String) : Except PyError Envelope :=
  if root.tag ≠ "sma.sunnyportal.services" then .error (.malformed "Unknown root tag")
  else
    match find_or_raise root "service" with
    | .error er => .error er
    | .ok service =>
        match service.find "error" with
        | some err =>
            let msg :=
              match err.findtext "message" with
              | none => "Invalid response error"
              | some "" => "Invalid response error"
              | some m => m
            .error (.responseError msg (err.findtext "code"))
        | none =>
            match get_or_raise service "creation-date" with
            | .error er => .error er
            | .ok cd =>
                match get_or_raise service "method" with
                | .error er => .error er
                | .ok method =>
                    match (match name with
                           | some n => Except.ok n
                           | none => get_or_raise service "name") with
                    | .error er => .error er
                    | .ok nm =>
                        match find_or_raise service nm with
                        | .error er => .error er
                        | .ok payload => .ok ⟨payload, cd, pyUpper method⟩

/-! ### `AuthenticationResponse.parse` -/

/-- The session token data extracted by `AuthenticationResponse`:
`server_offset` in seconds, `identifier`, and `key` (absent on logout). -/
structure AuthResult where
  server_offset : Int
  identifier : String
  key : Option String
  deriving DecidableEq, Repr

/-- `AuthenticationResponse.parse` given the local clock `now` (seconds
from the epoch, as sampled by `datetime.now()`). -/
def authParse (now : Int) (root : Elem) : Except PyError AuthResult :=
  match envelopeParse root none with
  | .error er => .error er
  | .ok env =>
      if env.payload.text ≠ some "OK" then
        .error (.responseError "Authentication failed" none)
      else
        match strptimeMDYIMSp env.creationDate with
        | none => .error .valueError
        | some cd =>
            let offset := now - cd.toSecs
            match get_or_raise env.payload "identifier" with
            | .error er => .error er
            | .ok ident =>
                if env.method ≠ "DELETE" then
                  match get_or_raise env.payload "key" with
                  | .error er => .error er
                  | .ok k => .ok ⟨offset, ident, some k⟩
                else .ok ⟨offset, ident, none⟩

/-! ### `LastDataExactResponse.parse` -/

/-- The `day` slot: a `Yield` only when both `absolute` and `difference`
convert to non-null. -/
def ldeDay (dayEl : Elem) : Except PyError (Option Yield) :=
  match parse_abs_diff dayEl with
  | .error er => .error er
  | .ok (some a, some d) =>
      match parse_timestamp dayEl strptimeDMY with
      | .error er => .error er
      | .ok t => .ok (some ⟨t, a, d⟩)
  | .ok _ => .ok none

/-- The `hour` slot: the hour's `%H:%M` time is combined with
`self.day.timestamp`; when `self.day` is `None` that attribute access
raises `AttributeError`. -/
def ldeHour (day : Option Yield) (hourEl : Elem) : Except PyError (Option Yield) :=
  match parse_abs_diff hourEl with
  | .error er => .error er
  | .ok (some a, some d) =>
      match parse_timestamp hourEl strptimeHM with
      | .error er => .error er
      | .ok t =>
          match day with
          | none => .error .attributeError
          | some dy => .ok (some ⟨DateTime.combine dy.timestamp t, a, d⟩)
  | .ok _ => .ok none

/-- Result of `LastDataExactResponse.parse`. -/
structure LastDataExactResult where
  day : Option Yield
  hour : Option Yield
  deriving DecidableEq, Repr

/-- `LastDataExactResponse.parse`. -/
def lastDataExactParse (root : Elem) : Except PyError LastDataExactResult :=
  match envelopeParse root none with
  | .error er => .error er
  | .ok env =>
      match find_or_raise env.payload "./Energy/channel" with
      | .error er => .error er
      | .ok tag =>
          match find_or_raise tag "day" with
          | .error er => .error er
          | .ok dayEl =>
              match ldeDay dayEl with
              | .error er => .error er
              | .ok day =>
                  match find_or_raise tag "hour" with
                  | .error er => .error er
                  | .ok hourEl =>
                      match ldeHour day hourEl with
                      | .error er => .error er
                      | .ok hour => .ok ⟨day, hour⟩

/-! ### The shared Yield-list loop

`AllDataResponse.parse`, `MonthOverviewResponse.parse` and
`YearOverviewResponse.parse` all run the same literal loop over their
entry elements: convert `absolute`/`difference`, and only when both are
non-null parse the timestamp and append a `Yield`. -/

/-- The source's per-entry loop, for the timestamp format `fmt`. -/
def yieldLoop (fmt : String → Option DateTime) : List Elem → Except PyError (List Yield)
  | [] => .ok []
  | e :: es =>
      match parse_abs_diff e with
      | .error er => .error er
      | .ok (some a, some d) =>
          match parse_timestamp e fmt with
          | .error er => .error er
          | .ok t =>
              match yieldLoop fmt es with
              | .error er => .error er
              | .ok l => .ok (⟨t, a, d⟩ :: l)
      | .ok _ => yieldLoop fmt es

/-- Result of `AllDataResponse.parse`: `energy` is the `months` list when
`isMonth`, the `years` list otherwise. -/
structure AllDataResult where
  start_timestamp : DateTime
  isMonth : Bool
  energy : List Yield
  deriving DecidableEq, Repr

/-- `AllDataResponse.parse`. -/
def allDataParse (root : Elem) : Except PyError AllDataResult :=
  match envelopeParse root none with
  | .error er => .error er
  | .ok env =>
      match find_or_raise env.payload "./Energy/channel/infinite" with
      | .error er => .error er
      | .ok tag =>
          match parse_timestamp tag strptimeDMYHM with
          | .error er => .error er
          | .ok start =>
              match yieldLoop
                  (if (tag.find "month").isSome then strptimeMY else strptimeY)
                  (tag.iterfind (if (tag.find "month").isSome then "month" else "year")) with
              | .error er => .error er
              | .ok energy => .ok ⟨start, (tag.find "month").isSome, energy⟩

/-! ### Overview responses -/

/-- `OverviewResponse.parse_abs_diff_date`: summary values from the
`[@absolute]`-qualified period element when present, else nulls with the
date from the mandatory plain element. -/
def parse_abs_diff_date (tag : Elem) (period : String)
    (fmt : String → Option DateTime) :
    Except PyError (Option Int × Option Int × DateTime) :=
  match tag.find ("./channel/" ++ period ++ "[@absolute]") with
  | some summary =>
      match parse_abs_diff summary with
      | .error er => .error er
      | .ok (a, d) =>
          match parse_timestamp summary fmt with
          | .error er => .error er
          | .ok t => .ok (a, d, t.dateOnly)
  | none =>
      match find_or_raise tag ("./channel/" ++ period) with
      | .error er => .error er
      | .ok summary =>
          match parse_timestamp summary fmt with
          | .error er => .error er
          | .ok t => .ok (none, none, t.dateOnly)

/-- Result of a month or year overview parse. -/
structure OverviewResult where
  absolute : Option Int
  difference : Option Int
  date : DateTime
  entries : List Yield
  deriving DecidableEq, Repr

/-- `MonthOverviewResponse.parse`. -/
def monthOverviewParse (root : Elem) : Except PyError OverviewResult :=
  match envelopeParse root none with
  | .error er => .error er
  | .ok env =>
      match find_or_raise env.payload "overview-month-total" with
      | .error er => .error er
      | .ok tag =>
          match parse_abs_diff_date tag "month" strptimeMY with
          | .error er => .error er
          | .ok (a, d, date) =>
              match yieldLoop strptimeDMY (tag.iterfind "./channel/month/day") with
              | .error er => .error er
              | .ok days => .ok ⟨a, d, date, days⟩

/-- `YearOverviewResponse.parse`. -/
def yearOverviewParse (root : Elem) : Except PyError OverviewResult :=
  match envelopeParse root none with
  | .error er => .error er
  | .ok env =>
      match find_or_raise env.payload "overview-year-total" with
      | .error er => .error er
      | .ok tag =>
          match parse_abs_diff_date tag "year" strptimeY with
          | .error er => .error er
          | .ok (a, d, date) =>
              match yieldLoop strptimeMY (tag.iterfind "./channel/year/month") with
              | .error er => .error er
              | .ok months => .ok ⟨a, d, date, months⟩

/-! ### `EnergyBalanceResponse` -/

/-- `EnergyBalanceResponse.parse_entry`: all three consumption then all
three generation fields must convert to non-null or the entry yields
`None`; the battery collapses to `None` exactly when both its fields are
null.  Converter calls happen in source order, so the first raising
conversion propagates. -/
def parse_entry (entry : Elem) (timestamp : DateTime)
    (conv : Option String → Except PyError (Option Int)) :
    Except PyError (Option EnergyBalance) :=
  match conv (entry.get "external-supply") with
  | .error er => .error er
  | .ok ext =>
    match conv (entry.get "self-supply") with
    | .error er => .error er
    | .ok internal =>
      match conv (entry.get "direct-consumption") with
      | .error er => .error er
      | .ok direct =>
          if ext = none ∨ internal = none ∨ direct = none then .ok none
          else
            match conv (entry.get "pv-generation") with
            | .error er => .error er
            | .ok pv =>
              match conv (entry.get "self-consumption") with
              | .error er => .error er
              | .ok sc =>
                match conv (entry.get "feed-in") with
                | .error er => .error er
                | .ok fi =>
                    if pv = none ∨ sc = none ∨ fi = none then .ok none
                    else
                      match conv (entry.get "battery-charging") with
                      | .error er => .error er
                      | .ok bc =>
                        match conv (entry.get "battery-discharging") with
                        | .error er => .error er
                        | .ok bd =>
                            let battery :=
                              if bc = none ∧ bd = none then none
                              else some (Battery.mk bc bd)
                            .ok (some ⟨timestamp, ⟨ext, internal, direct⟩,
                                       ⟨pv, sc, fi⟩, battery⟩)

/-- The per-entry loop shared by the `months` and `days` branches of
`EnergyBalanceResponse.parse`: parse the timestamp, then the entry, and
append it only when it is not `None`. -/
def ebLoop (fmt : String → Option DateTime)
    (conv : Option String → Except PyError (Option Int)) :
    List Elem → Except PyError (List EnergyBalance)
  | [] => .ok []
  | e :: es =>
      match parse_timestamp e fmt with
      | .error er => .error er
      | .ok date =>
          match parse_entry e date conv with
          | .error er => .error er
          | .ok b =>
              match ebLoop fmt conv es with
              | .error er => .error er
              | .ok l => .ok (match b with | some x => x :: l | none => l)

/-- The three document shapes `EnergyBalanceResponse.parse` populates. -/
inductive EBResult where
  | months (l : List EnergyBalance)
  | days (l : List EnergyBalance)
  | day (b : Option EnergyBalance)
  deriving DecidableEq, Repr

/-- The converter selection of `EnergyBalanceResponse.parse`: `"kWh"`
selects `kwh_to_wh`, anything else asserts the unit is `"Wh"` (a plain
`assert`, so any other or missing unit raises `AssertionError`). -/
def ebConverter (unit : Option String) :
    Except PyError (Option String → Except PyError (Option Int)) :=
  if unit = some "kWh" then .ok kwh_to_wh
  else if unit = some "Wh" then .ok wh_converter
  else .error .assertionError

/-- `EnergyBalanceResponse.parse`. -/
def energyBalanceParse (root : Elem) : Except PyError EBResult :=
  match envelopeParse root none with
  | .error er => .error er
  | .ok env =>
      match find_or_raise env.payload "energybalance" with
      | .error er => .error er
      | .ok tag =>
          match ebConverter (tag.get "unit") with
          | .error er => .error er
          | .ok conv =>
              if (tag.find "./*/month").isSome then
                match ebLoop strptimeMY conv (tag.iterfind "./*/month") with
                | .error er => .error er
                | .ok l => .ok (.months l)
              else if (tag.find "./*/day").isSome then
                match ebLoop strptimeDMY conv (tag.iterfind "./*/day") with
                | .error er => .error er
                | .ok l => .ok (.days l)
              else
                match tag.find "./day" with
                | some entry =>
                    match parse_timestamp entry strptimeDMY with
                    | .error er => .error er
                    | .ok date =>
                        match parse_entry entry date conv with
                        | .error er => .error er
                        | .ok b => .ok (.day b)
                | none => .error .notImplementedError

/-! ### `LogbookResponse` -/

/-- The logbook entry record (the dict the source appends). -/
structure LogEntry where
  event_id : String
  date : DateTime
  id : Option String
  type : Option String
  status : Option String
  description : String
  device_oid : String
  device_name : String
  device_serial : String
  deriving DecidableEq, Repr

/-- Replace every occurrence of `pat` in the list, left to right without
rescanning replacements (`str.replace` semantics); `fuel` bounds the
recursion by the input length. -/
def replaceAllAux (pat repl : List Char) : Nat → List Char → List Char
  | 0, l => l
  | fuel + 1, l =>
      if pat ≠ [] ∧ pat.isPrefixOf l then
        repl ++ replaceAllAux pat repl fuel (l.drop pat.length)
      else
        match l with
        | [] => []
        | c :: rest => c :: replaceAllAux pat repl fuel rest

/-- Python `str.replace(pat, repl)`. -/
def pyReplace (s pat repl : String) : String :=
  ⟨replaceAllAux pat.data repl.data s.data.length s.data⟩

/-- `xml.sax.saxutils.unescape(s, {"&apos;": "'", "&quot;": '"'})`:
`&lt;` and `&gt;` first, then the two extra entities in dict order, and
`&amp;` last. -/
def unescapeLogbook (s : String) : String :=
  pyReplace (pyReplace (pyReplace (pyReplace (pyReplace s "&lt;" "<")
    "&gt;" ">") "&apos;" "'") "&quot;" "\"") "&amp;" "&"

/-- Decode one logbook `entry` element, in source evaluation order. -/
def logbookEntryParse (e : Elem) : Except PyError LogEntry :=
  match find_or_raise e "device" with
  | .error er => .error er
  | .ok device =>
      match find_or_raise e "description" with
      | .error er => .error er
      | .ok descEl =>
          match descEl.text with
          | none => .error .attributeError
          | some rawDesc =>
              let description := unescapeLogbook rawDesc
              match find_or_raise e "date" with
              | .error er => .error er
              | .ok dateEl =>
                  match (match dateEl.text with
                         | none => Except.error PyError.typeError
                         | some s =>
                             match strptimeDMYHMS s with
                             | none => Except.error PyError.valueError
                             | some t => Except.ok t) with
                  | .error er => .error er
                  | .ok date =>
                      match get_or_raise e "event-id" with
                      | .error er => .error er
                      | .ok eventId =>
                          match find_or_raise e "id", find_or_raise e "type",
                              find_or_raise e "status" with
                          | .ok idEl, .ok typeEl, .ok statusEl =>
                              (match get_or_raise device "oid",
                                     get_or_raise device "name",
                                     get_or_raise device "serialnumber" with
                               | .ok oid, .ok nm, .ok serial =>
                                   .ok ⟨eventId, date, idEl.text, typeEl.text,
                                        statusEl.text, description, oid, nm, serial⟩
                               | .error er, _, _ => .error er
                               | _, .error er, _ => .error er
                               | _, _, .error er => .error er)
                          | .error er, _, _ => .error er
                          | _, .error er, _ => .error er
                          | _, _, .error er => .error er

/-- The entry loop of `LogbookResponse.parse`. -/
def logLoop : List Elem → Except PyError (List LogEntry)
  | [] => .ok []
  | e :: es =>
      match logbookEntryParse e with
      | .error er => .error er
      | .ok r =>
          match logLoop es with
          | .error er => .error er
          | .ok l => .ok (r :: l)

/-- `LogbookResponse.parse`. -/
def logbookParse (root : Elem) : Except PyError (List LogEntry) :=
  match envelopeParse root none with
  | .error er => .error er
  | .ok env => logLoop (env.payload.iterfind "entry")

/-! ## Request building (`sunnyportal/requests.py`) -/

/-- A query-parameter value as the source stores it: a string, the
integer protocol version, or the raw base64 signature bytes. -/
inductive PValue where
  | s (v : String)
  | n (v : Int)
  | b (v : List Nat)
  deriving DecidableEq, Repr

/-- `dict.__setitem__` on an insertion-ordered dict: replace in place if
the key exists, else append. -/
def dictAssign (ps : List (String × PValue)) (k : String) (v : PValue) :
    List (String × PValue) :=
  if ps.any (fun p => p.1 = k) then
    ps.map (fun p => if p.1 = k then (k, v) else p)
  else ps ++ [(k, v)]

/-- The characters `urllib.parse.quote` never escapes. -/
def quoteSafeChar (c : Char) : Bool :=
  c.isAlphanum || c = '_' || c = '.' || c = '-' || c = '~'

/-- An uppercase hex digit. -/
def hexDigit (n : Nat) : Char :=
  if n < 10 then digitChar n else Char.ofNat (55 + n)

/-- Percent-encode one byte. -/
def pctByte (b : Nat) : List Char := ['%', hexDigit (b / 16 % 16), hexDigit (b % 16)]

/-- `urllib.parse.quote(s)` with the default `safe='/'`. -/
def pyQuote (s : String) : String :=
  ⟨(s.data.map (fun c =>
      if quoteSafeChar c || c = '/' then [c]
      else (utf8Char c).map pctByte |>.flatten)).flatten⟩

/-- `urllib.parse.quote_plus(s)` with `safe=''` (as `urlencode` uses):
spaces become `+`, nothing else is safe beyond the fixed set. -/
def pyQuotePlus (s : String) : String :=
  ⟨(s.data.map (fun c =>
      if quoteSafeChar c then [c]
      else if c = ' ' then ['+']
      else (utf8Char c).map pctByte |>.flatten)).flatten⟩

/-- `quote_plus` applied directly to a bytes value. -/
def pyQuotePlusBytes (bs : List Nat) : String :=
  ⟨(bs.map (fun b =>
      let c := Char.ofNat b
      if quoteSafeChar c then [c]
      else if b = 32 then ['+']
      else pctByte b)).flatten⟩

/-- `urllib.parse.urlencode` on an insertion-ordered dict: `str()` the
value unless it is bytes, quote-plus both sides, join with `&`. -/
def urlencode (ps : List (String × PValue)) : String :=
  String.intercalate "&" (ps.map (fun p =>
    pyQuotePlus p.1 ++ "=" ++
      match p.2 with
      | .s v => pyQuotePlus v
      | .n v => pyQuotePlus (toString v)
      | .b v => pyQuotePlusBytes v))

/-- The session token held by a request. -/
structure Token where
  identifier : String
  key : String
  server_offset : Int
  deriving DecidableEq, Repr

/-- `RequestBase.get_timestamp`: `datetime.now() - offset` formatted
`"%Y-%m-%dT%H:%M:%S"`; `now` is the local clock in epoch seconds. -/
def get_timestamp (now : Int) (offset : Int) : String :=
  fmtSigTimestamp (dtFromSecs (now - offset))

/-- `RequestBase.prepare_url` for a request with the given `service`,
`method` and optional `token` (the source's `self.version = 100` and
`self.base_path = '/services'` are fixed).  Returns the final query
parameters and the URL. -/
def prepare_url (service : String) (method : String) (token : Option Token)
    (now : Int) (segments : List String) (params : List (String × PValue)) :
    List (String × PValue) × String :=
  let params :=
    match token with
    | none => params
    | some tok =>
        let ts := get_timestamp now tok.server_offset
        let msg := utf8 (pyLower method) ++ utf8 (pyLower service) ++ utf8 ts ++
          utf8 (pyLower tok.identifier)
        let sig := (b64encode (hmacSha1 (utf8 tok.key) msg)).map Char.toNat
        let params := dictAssign params "timestamp" (.s ts)
        let params := dictAssign params "signature-method" (.s "auth")
        let params := dictAssign params "signature-version" (.n 100)
        dictAssign params "signature" (.b sig)
  let url := "/services/" ++ service ++ "/100/" ++
    String.intercalate "/" (segments.map pyQuote)
  (params, if params.isEmpty then url else url ++ "?" ++ urlencode params)

/-- The path segments `DataRequest.__init__` passes to `prepare_url`:
plant oid, metric name, and the date formatted `"%Y-%m-%d"`. -/
def dataRequestSegments (oid dataType : String) (date : DateTime) : List String :=
  [oid, dataType, fmtYmd date]

/-- `DataRequest.__init__`: add `culture` and `identifier` to the params
and prepare the URL under the `data` service (method `GET`). -/
def dataRequestUrl (token : Token) (now : Int) (oid dataType : String)
    (date : DateTime) (params : List (String × PValue)) :
    List (String × PValue) × String :=
  let params := dictAssign params "culture" (.s "en-gb")
  let params := dictAssign params "identifier" (.s token.identifier)
  prepare_url "data" "GET" (some token) now (dataRequestSegments oid dataType date)
    params

end SP

/-! Fidelity anchors for the hash pipeline, checked against reference
digests of SHA-1 / HMAC-SHA1 / base64. -/

example : SP.sha1 [] =
    [0xda, 0x39, 0xa3, 0xee, 0x5e, 0x6b, 0x4b, 0x0d, 0x32, 0x55,
     0xbf, 0xef, 0x95, 0x60, 0x18, 0x90, 0xaf, 0xd8, 0x07, 0x09] := by decide

example : SP.sha1 (SP.utf8 "abc") =
    [0xa9, 0x99, 0x3e, 0x36, 0x47, 0x06, 0x81, 0x6a, 0xba, 0x3e,
     0x25, 0x71, 0x78, 0x50, 0xc2, 0x6c, 0x9c, 0xd0, 0xd8, 0x9d] := by decide

example : SP.b64encodeStr (SP.hmacSha1 (SP.utf8 "secret")
    (SP.utf8 "getdata2020-01-02T03:04:05abc")) = "3TJXehagwUXTaTL5gdkZtNZYG4c=" := by
  decide

/-! Fidelity anchors for the binary64 model, checked against the exact
bit patterns and results of CPython `float`/`int`. -/

example : SP.pyFloatOfString "1.2345" = some ⟨false, 5559693739988877, -52⟩ := by decide
example : SP.pyFloatOfString "2.675" = some ⟨false, 6023564501608038, -51⟩ := by decide
example : SP.pyFloatOfString "0.001" = some ⟨false, 4611686018427388, -62⟩ := by decide
example : SP.pyFloatOfString "7" = some ⟨false, 7881299347898368, -50⟩ := by decide
example : ((SP.pyFloatOfString "1.2345").bind SP.pfMul1000).map SP.pfTruncInt
    = some 1234 := by decide
example : ((SP.pyFloatOfString "2.675").bind SP.pfMul1000).map SP.pfTruncInt
    = some 2675 := by decide
example : ((SP.pyFloatOfString "0.001").bind SP.pfMul1000).map SP.pfTruncInt
    = some 1 := by decide
example : (SP.pyFloatOfString "1.2345").map SP.pfTruncInt = some 1 := by decide

/-! Fidelity anchors for the datetime model. -/

example : SP.strptimeMDYIMSp "01/02/2020 03:04:05 PM" = some ⟨2020, 1, 2, 15, 4, 5⟩ := by
  decide
example : SP.strptimeDMY "31/12/2019" = some ⟨2019, 12, 31, 0, 0, 0⟩ := by decide
example : SP.strptimeDMY "29/02/2019" = none := by decide
example : SP.strptimeHM "14:30" = some ⟨1900, 1, 1, 14, 30, 0⟩ := by decide
example : SP.daysFromCivil 1970 1 1 = 0 := by decide
example : SP.dtFromSecs ((SP.DateTime.mk 2020 1 2 15 4 5).toSecs) =
    ⟨2020, 1, 2, 15, 4, 5⟩ := by decide
example : SP.fmtSigTimestamp ⟨2020, 1, 2, 3, 4, 5⟩ = "2020-01-02T03:04:05" := by decide

namespace SP

/-! ## Sample documents and entries used as concrete inputs -/

/-- An energy-balance entry with all six mandatory fields present and
only `battery-discharging` of the battery pair. -/
def ebEntrySample : Elem :=
  .mk "day" [("external-supply", "1"), ("self-supply", "2"),
    ("direct-consumption", "3"), ("pv-generation", "4"),
    ("self-consumption", "5"), ("feed-in", "6"),
    ("battery-discharging", "7")] none []

/-- An energy-balance document whose `unit` attribute is `"MWh"`. -/
def ebBadUnitTag : Elem := .mk "energybalance" [("unit", "MWh")] none []

/-- The payload element wrapping `ebBadUnitTag`. -/
def ebBadUnitPayload : Elem := .mk "energybalance" [] none [ebBadUnitTag]

/-- A complete response document around `ebBadUnitPayload`. -/
def ebBadUnitRoot : Elem :=
  .mk "sma.sunnyportal.services" [] none
    [.mk "service"
      [("creation-date", "01/02/2020 03:04:05 PM"), ("method", "GET"),
       ("name", "energybalance")] none [ebBadUnitPayload]]

/-- A response whose `error` element has a `message` but no `code`. -/
def errorNoCodeRoot : Elem :=
  .mk "sma.sunnyportal.services" [] none
    [.mk "service" [] none
      [.mk "error" [] none [.mk "message" [] (some "Invalid session") []]]]

/-- The `service` element of `error401Root`. -/
def error401Service : Elem :=
  .mk "service" [] none
    [.mk "error" [] none
      [.mk "code" [] (some "401") [], .mk "message" [] (some "Invalid session") []]]

/-- A response embedding `<error><code>401</code><message>Invalid
session</message></error>`. -/
def error401Root : Elem :=
  .mk "sma.sunnyportal.services" [] none [error401Service]

/-- A response whose `error` element has a `code` but no `message`. -/
def errorNoMsgRoot : Elem :=
  .mk "sma.sunnyportal.services" [] none
    [.mk "service" [] none
      [.mk "error" [] none [.mk "code" [] (some "500") []]]]

end SP

namespace SP

/-! ## Claim theorems -/

/-- C2: `kwh_to_wh` maps `None` to `None` and any decimal string `x`
with finite `float(x)` and finite product to `int(float(x) * 1000)` —
the binary64 product truncated toward zero by the integer cast, so
`"1.2345"` gives `1234` (not `1235`) and `"2.675"` gives `2675` (its
float product rounds up to exactly `2675.0`). -/
theorem kwh_to_wh_trunc_float_mul :
    (∀ x f g, pyFloatOfString x = some f → pfMul1000 f = some g →
      kwh_to_wh (some x) = .ok (some (pfTruncInt g))) ∧
    kwh_to_wh none = .ok none ∧
    kwh_to_wh (some "1.2345") = .ok (some 1234) ∧
    kwh_to_wh (some "2.675") = .ok (some 2675) := by
  refine ⟨?_, rfl, by decide, by decide⟩
  intro x f g h1 h2
  simp [kwh_to_wh, h1, h2]

/-- C2 witness: the general equation instantiated at `"1.2345"`, whose
float is `5559693739988877 * 2^-52` and whose float product is
`5429388417957888 * 2^-42`, truncating to `1234`. -/
theorem kwh_to_wh_trunc_float_mul_witness :
    kwh_to_wh (some "1.2345") =
      .ok (some (pfTruncInt ⟨false, 5429388417957888, -42⟩)) :=
  kwh_to_wh_trunc_float_mul.1 "1.2345" ⟨false, 5559693739988877, -52⟩
    ⟨false, 5429388417957888, -42⟩ (by decide) (by decide)

/-- C4: given the converted values of the six mandatory fields and the
two battery fields, `parse_entry` emits a record exactly when all three
consumption and all three generation values are non-null, and the
battery component collapses to absent exactly when both battery values
are null, being kept as-is otherwise. -/
theorem parse_entry_emission (e : Elem) (ts : DateTime)
    (conv : Option String → Except PyError (Option Int))
    (c1 c2 c3 g1 g2 g3 b1 b2 : Option Int)
    (h1 : conv (e.get "external-supply") = .ok c1)
    (h2 : conv (e.get "self-supply") = .ok c2)
    (h3 : conv (e.get "direct-consumption") = .ok c3)
    (h4 : conv (e.get "pv-generation") = .ok g1)
    (h5 : conv (e.get "self-consumption") = .ok g2)
    (h6 : conv (e.get "feed-in") = .ok g3)
    (h7 : conv (e.get "battery-charging") = .ok b1)
    (h8 : conv (e.get "battery-discharging") = .ok b2) :
    parse_entry e ts conv = .ok (
      if c1 = none ∨ c2 = none ∨ c3 = none then none
      else if g1 = none ∨ g2 = none ∨ g3 = none then none
      else some ⟨ts, ⟨c1, c2, c3⟩, ⟨g1, g2, g3⟩,
        if b1 = none ∧ b2 = none then none else some ⟨b1, b2⟩⟩) := by
  simp only [parse_entry, h1, h2, h3, h4, h5, h6, h7, h8]
  split_ifs <;> rfl

/-- C4 witness: a concrete entry under the `"Wh"` converter; all six
mandatory fields convert, `battery-charging` is null but
`battery-discharging` is not, so the battery pair is kept as-is. -/
theorem parse_entry_emission_witness :
    parse_entry ebEntrySample ⟨2020, 1, 1, 0, 0, 0⟩ wh_converter =
      .ok (some ⟨⟨2020, 1, 1, 0, 0, 0⟩, ⟨some 1, some 2, some 3⟩,
        ⟨some 4, some 5, some 6⟩, some ⟨none, some 7⟩⟩) := by
  rw [parse_entry_emission ebEntrySample ⟨2020, 1, 1, 0, 0, 0⟩ wh_converter
    (some 1) (some 2) (some 3) (some 4) (some 5) (some 6) none (some 7)
    (by decide) (by decide) (by decide) (by decide) (by decide) (by decide)
    (by decide) (by decide)]
  rfl

/-- C10: a missing `unit` attribute, or any value other than `"kWh"` or
`"Wh"`, makes `EnergyBalanceResponse.parse` fail with a bare
`AssertionError` (not `MalformedResponseError` or `ResponseError`);
`"Wh"` selects plain truncation `int(float(x))` with no scaling and
`"kWh"` selects `int(float(x) * 1000)`. -/
theorem energy_balance_unit_assertion :
    (∀ u, u ≠ some "kWh" → u ≠ some "Wh" →
      ebConverter u = .error .assertionError) ∧
    (∀ root env tag, envelopeParse root none = .ok env →
      find_or_raise env.payload "energybalance" = .ok tag →
      tag.get "unit" ≠ some "kWh" → tag.get "unit" ≠ some "Wh" →
      energyBalanceParse root = .error .assertionError) ∧
    ebConverter (some "Wh") = .ok wh_converter ∧
    ebConverter (some "kWh") = .ok kwh_to_wh ∧
    (∀ s f, pyFloatOfString s = some f →
      wh_converter (some s) = .ok (some (pfTruncInt f))) ∧
    (∀ s f g, pyFloatOfString s = some f → pfMul1000 f = some g →
      kwh_to_wh (some s) = .ok (some (pfTruncInt g))) := by
  have ha : ∀ u, u ≠ some "kWh" → u ≠ some "Wh" →
      ebConverter u = .error .assertionError := by
    intro u h1 h2
    simp [ebConverter, h1, h2]
  refine ⟨ha, ?_, rfl, rfl, ?_, ?_⟩
  · intro root env tag h1 h2 h3 h4
    simp only [energyBalanceParse, h1, h2, ha (tag.get "unit") h3 h4]
  · intro s f h
    simp [wh_converter, h]
  · intro s f g h1 h2
    simp [kwh_to_wh, h1, h2]

/-- C10 witness: a full document whose `energybalance` element declares
`unit="MWh"`; the parse fails with `AssertionError`. -/
theorem energy_balance_unit_assertion_witness :
    energyBalanceParse ebBadUnitRoot = .error .assertionError :=
  energy_balance_unit_assertion.2.1 ebBadUnitRoot
    ⟨ebBadUnitPayload, "01/02/2020 03:04:05 PM", "GET"⟩ ebBadUnitTag
    rfl rfl (by decide) (by decide)

/-- C7 counterexample: an embedded `error` element carrying a `message`
but no `code` produces a `ResponseError` whose code is `None`, not the
claimed default `"unknown-error"`. -/
theorem envelope_error_code_counterexample :
    envelopeParse errorNoCodeRoot none =
      .error (.responseError "Invalid session" none) ∧
    PyError.responseError "Invalid session" none ≠
      PyError.responseError "Invalid session" (some "unknown-error") :=
  ⟨rfl, by decide⟩

/-- C7 (amended): an embedded `error` child fails the parse with a
`ResponseError` whose message is the error's `message` text, defaulting
to `"Invalid response error"` when absent or empty, and whose code is
the error's `code` text or `None` when absent (no `"unknown-error"`
default); in particular `<error><code>401</code><message>Invalid
session</message></error>` yields code `"401"` and message
`"Invalid session"`. -/
theorem envelope_error_propagation :
    (∀ root service err, root.tag = "sma.sunnyportal.services" →
      find_or_raise root "service" = .ok service →
      service.find "error" = some err →
      envelopeParse root none = .error (.responseError
        (match err.findtext "message" with
         | none => "Invalid response error"
         | some "" => "Invalid response error"
         | some m => m)
        (err.findtext "code"))) ∧
    envelopeParse error401Root none =
      .error (.responseError "Invalid session" (some "401")) ∧
    envelopeParse errorNoMsgRoot none =
      .error (.responseError "Invalid response error" (some "500")) := by
  refine ⟨?_, rfl, rfl⟩
  intro root service err h1 h2 h3
  simp [envelopeParse, h1, h2, h3]

/-- C7 witness: the general error-propagation rule applied to the
401/Invalid-session document. -/
theorem envelope_error_propagation_witness :
    envelopeParse error401Root none =
      .error (.responseError
        (match (Elem.mk "error" [] none
            [.mk "code" [] (some "401") [], .mk "message" [] (some "Invalid session") []]).findtext "message" with
         | none => "Invalid response error"
         | some "" => "Invalid response error"
         | some m => m)
        ((Elem.mk "error" [] none
            [.mk "code" [] (some "401") [], .mk "message" [] (some "Invalid session") []]).findtext "code")) :=
  envelope_error_propagation.1 error401Root error401Service
    (.mk "error" [] none
      [.mk "code" [] (some "401") [], .mk "message" [] (some "Invalid session") []])
    rfl rfl rfl

end SP

namespace SP

/-- A yield entry whose `difference` attribute is missing. -/
def yieldEntryNoDiff : Elem := .mk "day" [("absolute", "1.5")] none []

/-- C3: in the shared loop that builds the Yield lists of the AllData,
month-overview and year-overview decoders, an entry whose `absolute` or
`difference` converts to null is excluded entirely — the loop result on
it is the loop result on the remaining entries, so no placeholder is
appended and no error is raised for it — while an entry with both
non-null contributes exactly one `Yield`; and each of the three parse
functions obtains its list from that loop on its extracted entries. -/
theorem yield_entry_filtering :
    (∀ fmt (e : Elem) es a d, parse_abs_diff e = .ok (a, d) →
      (a = none ∨ d = none) →
      yieldLoop fmt (e :: es) = yieldLoop fmt es) ∧
    (∀ fmt (e : Elem) es a d t l, parse_abs_diff e = .ok (some a, some d) →
      parse_timestamp e fmt = .ok t → yieldLoop fmt es = .ok l →
      yieldLoop fmt (e :: es) = .ok (⟨t, a, d⟩ :: l)) ∧
    (∀ root r, allDataParse root = .ok r → ∃ env tag,
      envelopeParse root none = .ok env ∧
      find_or_raise env.payload "./Energy/channel/infinite" = .ok tag ∧
      yieldLoop (if (tag.find "month").isSome then strptimeMY else strptimeY)
        (tag.iterfind (if (tag.find "month").isSome then "month" else "year")) =
        .ok r.energy) ∧
    (∀ root r, monthOverviewParse root = .ok r → ∃ env tag,
      envelopeParse root none = .ok env ∧
      find_or_raise env.payload "overview-month-total" = .ok tag ∧
      yieldLoop strptimeDMY (tag.iterfind "./channel/month/day") = .ok r.entries) ∧
    (∀ root r, yearOverviewParse root = .ok r → ∃ env tag,
      envelopeParse root none = .ok env ∧
      find_or_raise env.payload "overview-year-total" = .ok tag ∧
      yieldLoop strptimeMY (tag.iterfind "./channel/year/month") = .ok r.entries) := by
  refine ⟨?_, ?_, ?_, ?_, ?_⟩
  · intro fmt e es a d hpd hnone
    cases a with
    | none => simp [yieldLoop, hpd]
    | some av =>
      cases d with
      | none => simp [yieldLoop, hpd]
      | some dv => rcases hnone with h | h <;> simp at h
  · intro fmt e es a d t l h1 h2 h3
    simp [yieldLoop, h1, h2, h3]
  · intro root r h
    unfold allDataParse at h
    cases henv : envelopeParse root none with
    | error er => simp only [henv] at h; exact Except.noConfusion h
    | ok env =>
      simp only [henv] at h
      cases hfind : find_or_raise env.payload "./Energy/channel/infinite" with
      | error er => simp only [hfind] at h; exact Except.noConfusion h
      | ok tag =>
        simp only [hfind] at h
        cases hts : parse_timestamp tag strptimeDMYHM with
        | error er => simp only [hts] at h; exact Except.noConfusion h
        | ok start =>
          simp only [hts] at h
          cases hloop : yieldLoop
              (if (tag.find "month").isSome then strptimeMY else strptimeY)
              (tag.iterfind (if (tag.find "month").isSome then "month" else "year")) with
          | error er => simp only [hloop] at h; exact Except.noConfusion h
          | ok energy =>
            simp only [hloop] at h
            cases h
            exact ⟨env, tag, rfl, hfind, hloop⟩
  · intro root r h
    unfold monthOverviewParse at h
    cases henv : envelopeParse root none with
    | error er => simp only [henv] at h; exact Except.noConfusion h
    | ok env =>
      simp only [henv] at h
      cases hfind : find_or_raise env.payload "overview-month-total" with
      | error er => simp only [hfind] at h; exact Except.noConfusion h
      | ok tag =>
        simp only [hfind] at h
        cases hadd : parse_abs_diff_date tag "month" strptimeMY with
        | error er => simp only [hadd] at h; exact Except.noConfusion h
        | ok add =>
          obtain ⟨a, d, date⟩ := add
          simp only [hadd] at h
          cases hloop : yieldLoop strptimeDMY (tag.iterfind "./channel/month/day") with
          | error er => simp only [hloop] at h; exact Except.noConfusion h
          | ok days =>
            simp only [hloop] at h
            cases h
            exact ⟨env, tag, rfl, hfind, hloop⟩
  · intro root r h
    unfold yearOverviewParse at h
    cases henv : envelopeParse root none with
    | error er => simp only [henv] at h; exact Except.noConfusion h
    | ok env =>
      simp only [henv] at h
      cases hfind : find_or_raise env.payload "overview-year-total" with
      | error er => simp only [hfind] at h; exact Except.noConfusion h
      | ok tag =>
        simp only [hfind] at h
        cases hadd : parse_abs_diff_date tag "year" strptimeY with
        | error er => simp only [hadd] at h; exact Except.noConfusion h
        | ok add =>
          obtain ⟨a, d, date⟩ := add
          simp only [hadd] at h
          cases hloop : yieldLoop strptimeMY (tag.iterfind "./channel/year/month") with
          | error er => simp only [hloop] at h; exact Except.noConfusion h
          | ok months =>
            simp only [hloop] at h
            cases h
            exact ⟨env, tag, rfl, hfind, hloop⟩

/-- C3 witness: the loop on a concrete entry lacking `difference`
equals the loop on the rest, with no error and no placeholder. -/
theorem yield_entry_filtering_witness :
    yieldLoop strptimeDMY (yieldEntryNoDiff :: []) = yieldLoop strptimeDMY [] :=
  yield_entry_filtering.1 strptimeDMY yieldEntryNoDiff [] (some 1500) none
    (by decide) (Or.inr rfl)

end SP

namespace SP

/-- A successful authentication response document. -/
def authOkRoot : Elem :=
  .mk "sma.sunnyportal.services" [] none
    [.mk "service"
      [("creation-date", "01/02/2020 03:04:05 PM"), ("method", "GET"),
       ("name", "authentication")] none
      [.mk "authentication" [("identifier", "abc"), ("key", "secret")]
        (some "OK") []]]

/-- C5: for a well-enveloped authentication response, a payload text
other than `"OK"` fails with `ResponseError "Authentication failed"`;
otherwise the identifier comes from the mandatory `identifier`
attribute, the key from the mandatory `key` attribute unless the
envelope method is `DELETE`, and the server offset is `now` minus the
creation date parsed with `"%m/%d/%Y %I:%M:%S %p"` — under which
`"01/02/2020 03:04:05 PM"` reads as 2020-01-02T15:04:05. -/
theorem auth_parse_token :
    (∀ now root env, envelopeParse root none = .ok env →
      env.payload.text ≠ some "OK" →
      authParse now root = .error (.responseError "Authentication failed" none)) ∧
    (∀ now root env cd ident key, envelopeParse root none = .ok env →
      env.payload.text = some "OK" →
      strptimeMDYIMSp env.creationDate = some cd →
      get_or_raise env.payload "identifier" = .ok ident →
      env.method ≠ "DELETE" →
      get_or_raise env.payload "key" = .ok key →
      authParse now root = .ok ⟨now - cd.toSecs, ident, some key⟩) ∧
    (∀ now root env cd ident, envelopeParse root none = .ok env →
      env.payload.text = some "OK" →
      strptimeMDYIMSp env.creationDate = some cd →
      get_or_raise env.payload "identifier" = .ok ident →
      env.method = "DELETE" →
      authParse now root = .ok ⟨now - cd.toSecs, ident, none⟩) ∧
    strptimeMDYIMSp "01/02/2020 03:04:05 PM" = some ⟨2020, 1, 2, 15, 4, 5⟩ := by
  refine ⟨?_, ?_, ?_, by decide⟩
  · intro now root env h1 h2
    simp [authParse, h1, h2]
  · intro now root env cd ident key h1 h2 h3 h4 h5 h6
    simp [authParse, h1, h2, h3, h4, h5, h6]
  · intro now root env cd ident h1 h2 h3 h4 h5
    simp [authParse, h1, h2, h3, h4, h5]

/-- C5 witness: a concrete OK response with identifier `"abc"`, key
`"secret"` and creation date `"01/02/2020 03:04:05 PM"`, at clock
`now = 1600000000`. -/
theorem auth_parse_token_witness :
    authParse 1600000000 authOkRoot =
      .ok ⟨1600000000 - (DateTime.mk 2020 1 2 15 4 5).toSecs, "abc", some "secret"⟩ :=
  auth_parse_token.2.1 1600000000 authOkRoot
    ⟨.mk "authentication" [("identifier", "abc"), ("key", "secret")] (some "OK") [],
     "01/02/2020 03:04:05 PM", "GET"⟩
    ⟨2020, 1, 2, 15, 4, 5⟩ "abc" "secret" rfl rfl (by decide) (by decide)
    (by decide) (by decide)

/-- The `ldeHour` slot can never produce a `Yield` when the day slot is
`None`: the `self.day.timestamp` access errors first. -/
theorem ldeHour_none_not_some (hourEl : Elem) (y : Yield) :
    ldeHour none hourEl ≠ .ok (some y) := by
  intro hcon
  unfold ldeHour at hcon
  cases hpd : parse_abs_diff hourEl with
  | error er => rw [hpd] at hcon; exact Except.noConfusion hcon
  | ok p =>
    obtain ⟨a, d⟩ := p
    rw [hpd] at hcon
    cases a with
    | none => simp at hcon
    | some av =>
      cases d with
      | none => simp at hcon
      | some dv =>
        cases hts : parse_timestamp hourEl strptimeHM with
        | error er => simp [hts] at hcon
        | ok t => simp [hts] at hcon

/-- A complete LastDataExact document with both `day` and `hour`. -/
def ldeRoot : Elem :=
  .mk "sma.sunnyportal.services" [] none
    [.mk "service"
      [("creation-date", "01/02/2020 03:04:05 PM"), ("method", "GET"),
       ("name", "lastdataexact")] none
      [.mk "lastdataexact" [] none
        [.mk "Energy" [] none
          [.mk "channel" [] none
            [.mk "day" [("timestamp", "02/01/2020"), ("absolute", "1.5"),
               ("difference", "0.5")] none [],
             .mk "hour" [("timestamp", "14:30"), ("absolute", "1.2345"),
               ("difference", "0.001")] none []]]]]]

/-- C6: in LastDataExact decoding the hour Yield's timestamp combines
the day Yield's date with the hour's `%H:%M` time; when the day slot is
`None` the combination is never performed — the `self.day.timestamp`
access raises `AttributeError` first — so a successful parse emits an
hour record only when the day record is also present. -/
theorem lde_hour_requires_day :
    (∀ hourEl a d t, parse_abs_diff hourEl = .ok (some a, some d) →
      parse_timestamp hourEl strptimeHM = .ok t →
      ldeHour none hourEl = .error .attributeError) ∧
    (∀ dy hourEl a d t, parse_abs_diff hourEl = .ok (some a, some d) →
      parse_timestamp hourEl strptimeHM = .ok t →
      ldeHour (some dy) hourEl = .ok (some ⟨DateTime.combine dy.timestamp t, a, d⟩)) ∧
    (∀ root r hy, lastDataExactParse root = .ok r → r.hour = some hy →
      ∃ dy, r.day = some dy) := by
  refine ⟨?_, ?_, ?_⟩
  · intro hourEl a d t h1 h2
    simp [ldeHour, h1, h2]
  · intro dy hourEl a d t h1 h2
    simp [ldeHour, h1, h2]
  · intro root r hy h hh
    unfold lastDataExactParse at h
    cases henv : envelopeParse root none with
    | error er => rw [henv] at h; exact Except.noConfusion h
    | ok env =>
      rw [henv] at h
      cases hch : find_or_raise env.payload "./Energy/channel" with
      | error er => simp only [hch] at h; exact Except.noConfusion h
      | ok tag =>
        simp only [hch] at h
        cases hde : find_or_raise tag "day" with
        | error er => simp only [hde] at h; exact Except.noConfusion h
        | ok dayEl =>
          simp only [hde] at h
          cases hday : ldeDay dayEl with
          | error er => simp only [hday] at h; exact Except.noConfusion h
          | ok day =>
            simp only [hday] at h
            cases hhe : find_or_raise tag "hour" with
            | error er => simp only [hhe] at h; exact Except.noConfusion h
            | ok hourEl =>
              simp only [hhe] at h
              cases hhour : ldeHour day hourEl with
              | error er => simp only [hhour] at h; exact Except.noConfusion h
              | ok hour =>
                simp only [hhour] at h
                cases h
                cases day with
                | some dy => exact ⟨dy, rfl⟩
                | none =>
                    have hh' : hour = some hy := hh
                    rw [hh'] at hhour
                    exact absurd hhour (ldeHour_none_not_some hourEl hy)

end SP

namespace SP

/-- C6 witness: the dependency applied to a complete concrete document;
its parsed hour record exists, so its day record must too. -/
theorem lde_hour_requires_day_witness :
    ∃ dy, (LastDataExactResult.mk
      (some ⟨⟨2020, 1, 2, 0, 0, 0⟩, 1500, 500⟩)
      (some ⟨⟨2020, 1, 2, 14, 30, 0⟩, 1234, 1⟩)).day = some dy :=
  lde_hour_requires_day.2.2 ldeRoot
    ⟨some ⟨⟨2020, 1, 2, 0, 0, 0⟩, 1500, 500⟩,
     some ⟨⟨2020, 1, 2, 14, 30, 0⟩, 1234, 1⟩⟩
    ⟨⟨2020, 1, 2, 14, 30, 0⟩, 1234, 1⟩ (by decide) (by decide)

end SP

namespace SP

/-- Assigning a key absent from an insertion-ordered dict appends it. -/
theorem dictAssign_fresh (ps : List (String × PValue)) (k : String) (v : PValue)
    (h : ps.any (fun p => p.1 = k) = false) : dictAssign ps k v = ps ++ [(k, v)] := by
  simp [dictAssign, h]

/-- The four signature parameters are appended in order when none of
their keys is already present. -/
theorem dictAssign_sig_chain (params : List (String × PValue)) (v1 v2 v3 v4 : PValue)
    (h1 : params.any (fun p => p.1 = "timestamp") = false)
    (h2 : params.any (fun p => p.1 = "signature-method") = false)
    (h3 : params.any (fun p => p.1 = "signature-version") = false)
    (h4 : params.any (fun p => p.1 = "signature") = false) :
    dictAssign (dictAssign (dictAssign (dictAssign params "timestamp" v1)
        "signature-method" v2) "signature-version" v3) "signature" v4 =
      params ++ [("timestamp", v1), ("signature-method", v2),
        ("signature-version", v3), ("signature", v4)] := by
  have g2 : (params ++ [("timestamp", v1)]).any
      (fun p => p.1 = "signature-method") = false := by
    simp only [List.any_append, List.any_cons, List.any_nil, h2, Bool.false_or,
      Bool.or_false]
    rfl
  have g3 : ((params ++ [("timestamp", v1)]) ++ [("signature-method", v2)]).any
      (fun p => p.1 = "signature-version") = false := by
    simp only [List.any_append, List.any_cons, List.any_nil, h3, Bool.false_or,
      Bool.or_false]
    rfl
  have g4 : (((params ++ [("timestamp", v1)]) ++ [("signature-method", v2)]) ++
      [("signature-version", v3)]).any (fun p => p.1 = "signature") = false := by
    simp only [List.any_append, List.any_cons, List.any_nil, h4, Bool.false_or,
      Bool.or_false]
    rfl
  rw [dictAssign_fresh params "timestamp" v1 h1,
      dictAssign_fresh _ "signature-method" v2 g2,
      dictAssign_fresh _ "signature-version" v3 g3,
      dictAssign_fresh _ "signature" v4 g4]
  simp [List.append_assoc]

/-- C1: with a token present, `prepare_url` extends the query parameters
with exactly `timestamp`, `signature-method="auth"`,
`signature-version=100` and `signature` in that order, where the
timestamp is `now - server_offset` formatted `%Y-%m-%dT%H:%M:%S` and the
signature is the standard base64 of HMAC-SHA1 keyed by the token key
over `lower(method) ++ lower(service) ++ timestamp ++ lower(identifier)`
in that order; with no token the parameters are unchanged.  Determinism
is immediate: `prepare_url` is a pure function of
`(service, method, token, now, segments, params)` and the equations
below give its unique value. -/
theorem prepare_url_signing :
    (∀ service method tok now segments params,
      params.any (fun p => p.1 = "timestamp") = false →
      params.any (fun p => p.1 = "signature-method") = false →
      params.any (fun p => p.1 = "signature-version") = false →
      params.any (fun p => p.1 = "signature") = false →
      (prepare_url service method (some tok) now segments params).1 =
        params ++
          [("timestamp", PValue.s (get_timestamp now tok.server_offset)),
           ("signature-method", PValue.s "auth"),
           ("signature-version", PValue.n 100),
           ("signature", PValue.b ((b64encode (hmacSha1 (utf8 tok.key)
              (utf8 (pyLower method) ++ utf8 (pyLower service) ++
               utf8 (get_timestamp now tok.server_offset) ++
               utf8 (pyLower tok.identifier)))).map Char.toNat))]) ∧
    (∀ now offset, get_timestamp now offset =
      fmtSigTimestamp (dtFromSecs (now - offset))) ∧
    (∀ service method now segments params,
      (prepare_url service method none now segments params).1 = params) := by
  refine ⟨?_, fun _ _ => rfl, fun _ _ _ _ _ => rfl⟩
  intro service method tok now segments params h1 h2 h3 h4
  simp only [prepare_url]
  exact dictAssign_sig_chain params _ _ _ _ h1 h2 h3 h4

/-- C1 witness: the signing equation at a concrete token, clock and
empty parameter dict. -/
theorem prepare_url_signing_witness :
    (prepare_url "data" "GET" (some ⟨"ABC", "secret", 5⟩) 1600000000 ["p1"] []).1 =
      [] ++
        [("timestamp", PValue.s (get_timestamp 1600000000 5)),
         ("signature-method", PValue.s "auth"),
         ("signature-version", PValue.n 100),
         ("signature", PValue.b ((b64encode (hmacSha1 (utf8 "secret")
            (utf8 (pyLower "GET") ++ utf8 (pyLower "data") ++
             utf8 (get_timestamp 1600000000 5) ++
             utf8 (pyLower "ABC")))).map Char.toNat))] :=
  prepare_url_signing.1 "data" "GET" ⟨"ABC", "secret", 5⟩ 1600000000 ["p1"] []
    rfl rfl rfl rfl

end SP

namespace SP

/-- Decimal digit characters are never percent-encoded. -/
theorem quoteSafe_digitChar (n : Nat) :
    (quoteSafeChar (digitChar n) || digitChar n = '/') = true := by
  have h : n % 10 < 10 := Nat.mod_lt _ (by norm_num)
  unfold digitChar
  generalize hgen : n % 10 = k at h ⊢
  interval_cases k <;> decide

/-- `quote` is the identity on strings of safe characters. -/
theorem pyQuote_safe (s : String)
    (h : ∀ c ∈ s.data, (quoteSafeChar c || c = '/') = true) : pyQuote s = s := by
  obtain ⟨l⟩ := s
  unfold pyQuote
  congr 1
  induction l with
  | nil => rfl
  | cons c rest ih =>
      have hc := h c (by simp)
      have ih' := ih (fun x hx => h x (by simp [hx]))
      simp only [List.map_cons, List.flatten_cons, hc, if_pos, List.singleton_append]
      rw [ih']

/-- Every character of a `%Y-%m-%d` date string is safe. -/
theorem fmtYmd_chars_safe (t : DateTime) :
    ∀ c ∈ (fmtYmd t).data, (quoteSafeChar c || c = '/') = true := by
  intro c hc
  simp only [fmtYmd, pad4, pad2, List.cons_append, List.nil_append,
    List.append_assoc] at hc
  fin_cases hc <;> first | exact quoteSafe_digitChar _ | decide

/-- `dictAssign` never empties a dict. -/
theorem dictAssign_ne_nil (ps : List (String × PValue)) (k : String) (v : PValue) :
    dictAssign ps k v ≠ [] := by
  unfold dictAssign
  split
  · rename_i hany
    cases ps with
    | nil => simp at hany
    | cons p rest => simp
  · simp

/-- C8 (amended): the data-request path is
`/services/data/100/{oid}/{metric}/{date}` where the final segment is
the query date formatted `%Y-%m-%d` (not `DD/MM/YYYY`), passed through
`quote` unchanged since all its characters are safe. -/
theorem data_request_date_segment :
    (∀ oid dtype date, dataRequestSegments oid dtype date = [oid, dtype, fmtYmd date]) ∧
    (∀ date, pyQuote (fmtYmd date) = fmtYmd date) ∧
    (∀ token now oid dtype date params,
      (dataRequestUrl token now oid dtype date params).2 =
        "/services/data/100/" ++ pyQuote oid ++ "/" ++ pyQuote dtype ++ "/" ++
          fmtYmd date ++ "?" ++
          urlencode (dataRequestUrl token now oid dtype date params).1) := by
  refine ⟨fun _ _ _ => rfl, fun date => pyQuote_safe _ (fmtYmd_chars_safe date), ?_⟩
  intro token now oid dtype date params
  simp only [dataRequestUrl, prepare_url, dataRequestSegments]
  rw [if_neg]
  · rw [show ("/services/" ++ "data" ++ "/100/") = "/services/data/100/" by rfl]
    simp [String.intercalate, String.intercalate.go, String.append_assoc,
      pyQuote_safe _ (fmtYmd_chars_safe date)]
  · intro hemp
    exact dictAssign_ne_nil _ _ _ (List.isEmpty_iff.mp hemp)

/-- C8 counterexample: for 4 March 2020 the date segment of the request
path is `"2020-03-04"`, not the claimed `"04/03/2020"`. -/
theorem data_request_date_counterexample :
    dataRequestSegments "p1" "Energy" ⟨2020, 3, 4, 0, 0, 0⟩ =
      ["p1", "Energy", "2020-03-04"] ∧
    ("2020-03-04" : String) ≠ "04/03/2020" := ⟨by decide, by decide⟩

end SP

namespace SP

/-- A successful `find_or_raise` means the element was found. -/
theorem find_or_raise_ok {e : Elem} {p : String} {c : Elem}
    (h : find_or_raise e p = .ok c) : e.find p = some c := by
  unfold find_or_raise at h
  cases hf : e.find p with
  | none => rw [hf] at h; exact Except.noConfusion h
  | some x => simp only [hf] at h; cases h; rfl

/-- A concrete logbook entry whose description carries entity escapes
and a trailing HTML line break. -/
def logEntrySample : Elem :=
  .mk "entry" [("event-id", "E1")] none
    [.mk "device" [("oid", "D1"), ("name", "Inv"), ("serialnumber", "123")] none [],
     .mk "description" [] (some "Fault &apos;X&apos; occurred<br />") [],
     .mk "date" [] (some "02/01/2020 15:04:05") [],
     .mk "id" [] (some "I1") [],
     .mk "type" [] (some "Warning") [],
     .mk "status" [] (some "Ok") []]

/-- C9 counterexample: the logbook decoder unescapes the entities but
does not strip `<br />` — the claimed output drops the trailing break,
the code keeps it. -/
theorem logbook_br_counterexample :
    logbookEntryParse logEntrySample =
      .ok ⟨"E1", ⟨2020, 1, 2, 15, 4, 5⟩, some "I1", some "Warning", some "Ok",
        "Fault 'X' occurred<br />", "D1", "Inv", "123"⟩ ∧
    ("Fault 'X' occurred<br />" : String) ≠ "Fault 'X' occurred" :=
  ⟨by decide, by decide⟩

/-- C9 (amended): each decoded logbook description is the raw
description text passed through `unescape` with the extra entities
`&apos;` and `&quot;` (besides the standard `&lt;`/`&gt;`/`&amp;`), with
no HTML line-break stripping, so
`"Fault &apos;X&apos; occurred<br />"` decodes to
`"Fault 'X' occurred<br />"` (the `<br />` is kept). -/
theorem logbook_description_unescape :
    (∀ e r, logbookEntryParse e = .ok r → ∃ el raw,
      e.find "description" = some el ∧ el.text = some raw ∧
      r.description = unescapeLogbook raw) ∧
    (∀ root l, logbookParse root = .ok l → ∃ env,
      envelopeParse root none = .ok env ∧
      logLoop (env.payload.iterfind "entry") = .ok l) ∧
    unescapeLogbook "Fault &apos;X&apos; occurred<br />" =
      "Fault 'X' occurred<br />" ∧
    unescapeLogbook "a &quot;b&quot; &lt;c&gt; &amp;d" = "a \"b\" <c> &d" := by
  refine ⟨?_, ?_, by decide, by decide⟩
  · intro e r h
    unfold logbookEntryParse at h
    cases hdev : find_or_raise e "device" with
    | error er => rw [hdev] at h; exact Except.noConfusion h
    | ok device =>
      simp only [hdev] at h
      cases hdesc : find_or_raise e "description" with
      | error er => simp only [hdesc] at h; exact Except.noConfusion h
      | ok descEl =>
        simp only [hdesc] at h
        cases ht : descEl.text with
        | none => simp only [ht] at h; exact Except.noConfusion h
        | some raw =>
          simp only [ht] at h
          cases hdate : find_or_raise e "date" with
          | error er => simp only [hdate] at h; exact Except.noConfusion h
          | ok dateEl =>
            simp only [hdate] at h
            cases ht2 : dateEl.text with
            | none => simp only [ht2] at h; exact Except.noConfusion h
            | some ds =>
              simp only [ht2] at h
              cases hsp : strptimeDMYHMS ds with
              | none => simp only [hsp] at h; exact Except.noConfusion h
              | some dt =>
                simp only [hsp] at h
                cases hev : get_or_raise e "event-id" with
                | error er => simp only [hev] at h; exact Except.noConfusion h
                | ok eventId =>
                  simp only [hev] at h
                  cases hid : find_or_raise e "id" with
                  | error er => simp only [hid] at h; exact Except.noConfusion h
                  | ok idEl =>
                    simp only [hid] at h
                    cases hty : find_or_raise e "type" with
                    | error er => simp only [hty] at h; exact Except.noConfusion h
                    | ok typeEl =>
                      simp only [hty] at h
                      cases hst : find_or_raise e "status" with
                      | error er => simp only [hst] at h; exact Except.noConfusion h
                      | ok statusEl =>
                        simp only [hst] at h
                        cases hoid : get_or_raise device "oid" with
                        | error er => simp only [hoid] at h; exact Except.noConfusion h
                        | ok oid =>
                          simp only [hoid] at h
                          cases hnm : get_or_raise device "name" with
                          | error er => simp only [hnm] at h; exact Except.noConfusion h
                          | ok nm =>
                            simp only [hnm] at h
                            cases hsn : get_or_raise device "serialnumber" with
                            | error er =>
                                simp only [hsn] at h; exact Except.noConfusion h
                            | ok serial =>
                              simp only [hsn] at h
                              cases h
                              exact ⟨descEl, raw, find_or_raise_ok hdesc, ht, rfl⟩
  · intro root l h
    unfold logbookParse at h
    cases henv : envelopeParse root none with
    | error er => rw [henv] at h; exact Except.noConfusion h
    | ok env =>
      simp only [henv] at h
      exact ⟨env, rfl, h⟩

/-- C9 witness: the description rule applied to the concrete entry. -/
theorem logbook_description_unescape_witness :
    ∃ el raw, logEntrySample.find "description" = some el ∧ el.text = some raw ∧
      (LogEntry.mk "E1" ⟨2020, 1, 2, 15, 4, 5⟩ (some "I1") (some "Warning")
        (some "Ok") "Fault 'X' occurred<br />" "D1" "Inv" "123").description =
        unescapeLogbook raw :=
  logbook_description_unescape.1 logEntrySample
    ⟨"E1", ⟨2020, 1, 2, 15, 4, 5⟩, some "I1", some "Warning", some "Ok",
     "Fault 'X' occurred<br />", "D1", "Inv", "123"⟩ (by decide)

end SP
